import Mathlib

/-!
Shallow embedding of `src/concurrent-downloader.py`.

Machine integers in the source are Python arbitrary-precision integers, so we
model them with `Int`.  Byte strings become `List Nat`.  The `download`
function's interaction with the network is abstracted by an environment
`env : Int → Int → Response` giving, for each requested byte range
`(start, end)`, the HTTP response the server delivers for that ranged GET.

Concurrency note: in the source, all fetch tasks are submitted inside a
`with ThreadPoolExecutor(...)` block whose exit (`shutdown(wait=True)`)
joins every task before the result-inspection loop at line 46 runs.  Each
task writes only its own private staging file, and only the main thread
writes to the output sink, sequentially, in submission order.  The
observable session outcome (tasks submitted, bytes written to the output
sink, staging files left behind, the propagated error) is therefore a
deterministic function of the per-range responses, which is what `download`
below computes.
-/

namespace ConcurrentDownloader

/-- The errors raised by the script.  The source raises bare `Exception`s;
we distinguish them by their message/site, mirroring the spec's taxonomy for
the errors that actually occur in the code:
`sizeUnknown` = "cannot determine total download size" (line 35),
`httpStatus s r` = "received status code ..." (line 21, and the equivalent
`urllib` HTTPError carrying status and reason),
`unsupportedRange` = "partial content not supported" (line 23). -/
inductive Err where
  | sizeUnknown : Err
  | httpStatus : Int → String → Err
  | unsupportedRange : Err
deriving DecidableEq

/-- An HTTP response as consumed by `download_chunk`: status code, reason
phrase, and the full body delivered for the ranged request. -/
structure Response where
  status : Int
  reason : String
  body : List Nat
deriving DecidableEq

/-- Embedding of `download_chunk` (lines 16-29).  Status dispatch: status
`>= 400` raises the status-code error; any other status that is not 206
(`HTTPStatus.PARTIAL_CONTENT`) raises "partial content not supported";
otherwise the whole body is written to the staging file (flushed and
fsynced) and `(range_start, range_end)` is returned.  The `ok` payload
bundles the bytes persisted to the staging file together with the returned
pair; on an error path the staging file was never opened, so no staged
bytes exist. -/
def download_chunk (res : Response) (range_start range_end : Int) :
    Except Err (List Nat × Int × Int) :=
  if 400 ≤ res.status then
    .error (.httpStatus res.status res.reason)
  else if res.status ≠ 206 then
    .error .unsupportedRange
  else
    .ok (res.body, range_start, range_end)

/-- Embedding of the planning loop of `download` (lines 39-45):

    start = 0
    while start < size:
        end = min(start + chunk_size - 1, size)
        ...submit (start, end)...
        start = end + 1

Written with explicit fuel because the loop does not terminate for every
input (e.g. `chunk_size = 0` leaves `start` unchanged); `none` means the
fuel ran out, i.e. the loop has not finished within `fuel` iterations. -/
def planLoop (size chunk_size : Int) : Nat → Int → Option (List (Int × Int))
  | 0, _ => none
  | fuel + 1, start =>
    if start < size then
      (planLoop size chunk_size fuel (min (start + chunk_size - 1) size + 1)).map
        (fun rest => (start, min (start + chunk_size - 1) size) :: rest)
    else
      some []

/-- `okB o = true` iff the fetch outcome `o` is a success (the future's
`result()` does not raise). -/
def okB (o : Except Err (List Nat × Int × Int)) : Bool :=
  match o with
  | .ok _ => true
  | .error _ => false

/-- The staging-file contents left behind by one fetch outcome: a successful
task staged its body; a failed task raised before opening its file. -/
def chunkBytes : Except Err (List Nat × Int × Int) → Option (List Nat)
  | .ok (body, _, _) => some body
  | .error _ => none

/-- The outcome of each task, one per planned range, in submission order.
By the time the result loop at line 46 runs, the executor `with` block has
already joined every task, so each task's outcome is fully determined by
the response the server gave for its range. -/
def outcomesOf (env : Int → Int → Response) (ranges : List (Int × Int)) :
    List (Except Err (List Nat × Int × Int)) :=
  ranges.map fun r => download_chunk (env r.1 r.2) r.1 r.2

/-- Embedding of the result loop of `download` (lines 46-55): iterate the
futures in submission order; on the first failed one, cancel the rest
(a no-op, every future is already done) and re-raise its error; otherwise
append the task's staged bytes to the output sink.  Returns the bytes
written to the output sink and the session result. -/
def runResults : List (Except Err (List Nat × Int × Int)) →
    List Nat × Except Err Unit
  | [] => ([], .ok ())
  | .ok (body, _, _) :: rest =>
    ((body ++ (runResults rest).1), (runResults rest).2)
  | .error e :: _ => ([], .error e)

/-- The observable outcome of one `download` invocation: ranges submitted
as tasks (in order), bytes written to the output sink, contents of the
staging files still on disk when the call returns, and the call's result. -/
structure SessionTrace where
  tasks : List (Int × Int)
  outWritten : List Nat
  stagingRemaining : List (List Nat)
  result : Except Err Unit

/-- Embedding of `download` (lines 32-55).  `content_length` is the probe
response's content-length header (`none` when absent); `env` gives the
response for each ranged fetch; `fuel` bounds the planning loop, `none`
meaning the call never returns.  Per the source: a missing content-length
raises before any task is submitted (lines 34-35); otherwise the planning
loop submits one task per range; the executor block joins all tasks; the
result loop then writes staged chunks to the output sink until the first
failure, whose error it re-raises.  No staging file is ever deleted, so
every successfully staged body remains on disk. -/
def download (content_length : Option Int) (env : Int → Int → Response)
    (chunk_size : Int) (max_workers : Int) (fuel : Nat) :
    Option SessionTrace :=
  match content_length with
  | none => some ⟨[], [], [], .error .sizeUnknown⟩
  | some size =>
    match planLoop size chunk_size fuel 0 with
    | none => none
    | some ranges =>
      some ⟨ranges,
            (runResults (outcomesOf env ranges)).1,
            (outcomesOf env ranges).filterMap chunkBytes,
            (runResults (outcomesOf env ranges)).2⟩

/-! ### Helper lemmas about the result loop -/

/-- The bytes the result loop writes to the output sink are exactly the
concatenation, in order, of the staged bodies of the outcomes preceding the
first failure (all of them when every outcome succeeded). -/
theorem runResults_fst (l : List (Except Err (List Nat × Int × Int))) :
    (runResults l).1 = ((l.takeWhile okB).filterMap chunkBytes).flatten := by
  induction l with
  | nil => rfl
  | cons o rest ih =>
    cases o with
    | ok v =>
      obtain ⟨body, s, e⟩ := v
      simp [runResults, List.takeWhile_cons, okB, chunkBytes, ih]
    | error e =>
      simp [runResults, List.takeWhile_cons, okB, chunkBytes]

/-- The result loop re-raises the error of the first failed outcome. -/
theorem runResults_snd_error (l : List (Except Err (List Nat × Int × Int)))
    (e : Err) :
    (runResults l).2 = .error e ↔ (l.dropWhile okB).head? = some (.error e) := by
  induction l with
  | nil => simp [runResults]
  | cons o rest ih =>
    cases o with
    | ok v =>
      obtain ⟨body, s, ed⟩ := v
      simpa [runResults, List.dropWhile_cons, okB] using ih
    | error e' =>
      simp [runResults, List.dropWhile_cons, okB]

/-- The result loop finishes without raising iff every task succeeded. -/
theorem runResults_snd_ok (l : List (Except Err (List Nat × Int × Int))) :
    (runResults l).2 = .ok () ↔ ∀ o ∈ l, okB o = true := by
  induction l with
  | nil => simp [runResults]
  | cons o rest ih =>
    cases o with
    | ok v =>
      obtain ⟨body, s, ed⟩ := v
      simp [runResults, okB, ih]
    | error e' =>
      simp [runResults, okB]

/-! ### Claim theorems -/

/-- C7: when the probe response carries no content-length, `download` fails
with the size-unknown error before any fetch task is dispatched: the trace
records no submitted task, no byte written to the output sink, and no
staging artifact. -/
theorem c7_size_probe_failure (env : Int → Int → Response)
    (chunk_size max_workers : Int) (fuel : Nat) :
    download none env chunk_size max_workers fuel =
      some ⟨[], [], [], .error .sizeUnknown⟩ := rfl

/-- C9: for a resource of total size 0 (content-length `0`), `download`
dispatches zero fetch tasks, writes nothing to the output sink, and returns
success, for every `chunk_size ≥ 1` and `max_workers ≥ 1` (one unit of fuel
already suffices: the planning loop exits at once). -/
theorem c9_empty_resource (env : Int → Int → Response)
    (chunk_size max_workers : Int) (fuel : Nat)
    (hcs : 1 ≤ chunk_size) (hmw : 1 ≤ max_workers) :
    download (some 0) env chunk_size max_workers (fuel + 1) =
      some ⟨[], [], [], .ok ()⟩ := rfl

/-- Witness for C9 at `chunk_size = 1`, `max_workers = 1`. -/
theorem c9_empty_resource_witness :
    download (some 0) (fun _ _ => ⟨206, "", []⟩) 1 1 1 =
      some ⟨[], [], [], .ok ()⟩ :=
  c9_empty_resource (fun _ _ => ⟨206, "", []⟩) 1 1 0 (by decide) (by decide)

/-- C1: evaluation of the planning loop at the claim's own concrete input
`totalSize = 2500000`, `chunkSize = 1048576`.  The code plans the final
range as `(2097152, 2500000)` — its `end` is clamped with
`min(start + chunk_size - 1, size)`, i.e. to `size`, not to `size - 1` —
so the planned ranges cover `[0, 2500000]`, one byte past the end of the
resource, instead of the claimed `[0, 2499999]` with final range
`(2097152, 2499999)`. -/
theorem c1_plan_off_by_one :
    planLoop 2500000 1048576 4 0 =
      some [(0, 1048575), (1048576, 2097151), (2097152, 2500000)] ∧
    ((2097152, 2500000) : Int × Int) ≠ (2097152, 2499999) := by
  exact ⟨by decide, by decide⟩

/-- With `chunk_size = 0` the planning loop never advances: `end` becomes
`min(start - 1, size) = start - 1` and the next `start` is `end + 1 = start`
again, so no amount of fuel finishes the loop. -/
theorem planLoop_chunk_zero (size : Int) (hs : 0 < size) (fuel : Nat) :
    planLoop size 0 fuel 0 = none := by
  induction fuel with
  | zero => rfl
  | succ n ih =>
    have hle : ((0 : Int) + 0 - 1) ≤ size := by omega
    have hmin : min ((0 : Int) + 0 - 1) size = -1 := by
      rw [min_eq_left hle]; norm_num
    simp only [planLoop, if_pos hs, hmin]
    norm_num [ih]

/-- C4: the code performs no validation of `chunk_size` at all; invoked with
`chunk_size = 0` on a 1-byte resource, `download` never returns (the
planning loop runs forever, re-submitting the same degenerate range), for
every fuel bound — it does not raise any configuration error. -/
theorem c4_chunk_size_zero_diverges (env : Int → Int → Response)
    (max_workers : Int) (fuel : Nat) :
    download (some 1) env 0 max_workers fuel = none := by
  simp only [download, planLoop_chunk_zero 1 (by decide) fuel]

/-- C5: status dispatch of a ranged fetch.  The fetch succeeds (returning
the staged body and the range) exactly when the status is 206; a status
`>= 400` fails with the status-code error carrying the status and reason;
any other status below 400 that is not 206 fails with the
"partial content not supported" error. -/
theorem c5_status_dispatch (res : Response) (range_start range_end : Int) :
    (download_chunk res range_start range_end =
        .ok (res.body, range_start, range_end) ↔ res.status = 206) ∧
    (400 ≤ res.status →
      download_chunk res range_start range_end =
        .error (.httpStatus res.status res.reason)) ∧
    (res.status < 400 → res.status ≠ 206 →
      download_chunk res range_start range_end = .error .unsupportedRange) := by
  unfold download_chunk
  refine ⟨⟨fun h => ?_, fun h => ?_⟩, fun h4 => ?_, fun h4 h6 => ?_⟩
  · split_ifs at h with h1 h2
    push_neg at h2
    exact h2
  · rw [h]
    norm_num
  · rw [if_pos h4]
  · rw [if_neg (by omega), if_pos h6]

/-- Witness for C5: a 206 succeeds staging the body, a 503 fails with the
status-code error, a plain 200 fails as unsupported range. -/
theorem c5_status_dispatch_witness :
    download_chunk ⟨206, "Partial Content", [7]⟩ 0 0 = .ok ([7], 0, 0) ∧
    download_chunk ⟨503, "Service Unavailable", []⟩ 0 0 =
      .error (.httpStatus 503 "Service Unavailable") ∧
    download_chunk ⟨200, "OK", [7]⟩ 0 0 = .error .unsupportedRange :=
  ⟨(c5_status_dispatch ⟨206, "Partial Content", [7]⟩ 0 0).1.mpr rfl,
   (c5_status_dispatch ⟨503, "Service Unavailable", []⟩ 0 0).2.1 (by decide),
   (c5_status_dispatch ⟨200, "OK", [7]⟩ 0 0).2.2 (by decide) (by decide)⟩

/-- C6 counterexample: a 206 response whose body is shorter than the
requested range length (3 bytes against the 10 expected for range `[0,9]`)
still succeeds — the code performs no byte-count check and no truncation
error exists anywhere in it — refuting the claim that a short read fails
instead of succeeding. -/
theorem c6_short_read_succeeds :
    download_chunk ⟨206, "Partial Content", [1, 2, 3]⟩ 0 9 =
      .ok ([1, 2, 3], 0, 9) ∧
    (([1, 2, 3] : List Nat).length : Int) ≠ 9 - 0 + 1 := ⟨rfl, by decide⟩

/-- C6 amended: on a 206 response the entire body is persisted to the
staging location (flushed and fsynced) before the function returns, but the
byte count is never compared against the expected range length — whatever
body arrives, of any length, is staged and reported as success. -/
theorem c6_full_body_staged (res : Response) (range_start range_end : Int)
    (h : res.status = 206) :
    download_chunk res range_start range_end =
      .ok (res.body, range_start, range_end) := by
  unfold download_chunk
  rw [h]
  norm_num

/-- Witness for the amended C6: a one-byte body for a 100-byte range is
staged in full and the fetch succeeds. -/
theorem c6_full_body_staged_witness :
    download_chunk ⟨206, "Partial Content", [5]⟩ 0 99 = .ok ([5], 0, 99) :=
  c6_full_body_staged ⟨206, "Partial Content", [5]⟩ 0 99 rfl

/-- Environment for the C2 counterexample: the first range succeeds with
body `[1,2,3]`, every other range gets a 500. -/
def c2Env : Int → Int → Response := fun s _ =>
  if s = 0 then ⟨206, "Partial Content", [1, 2, 3]⟩
  else ⟨500, "Internal Server Error", []⟩

/-- C2 counterexample: a 6-byte resource split into two 3-byte chunks where
the second fetch fails with a 500.  The result loop had already written the
first chunk's bytes `[1,2,3]` to the output sink before observing the
failure, so `download` propagates the error with a non-empty output sink —
refuting the claim that nothing has been written on a failed session. -/
theorem c2_failed_session_output_not_empty :
    download (some 6) c2Env 3 20 10 =
      some ⟨[(0, 2), (3, 5)], [1, 2, 3], [[1, 2, 3]],
        .error (.httpStatus 500 "Internal Server Error")⟩ ∧
    ([1, 2, 3] : List Nat) ≠ [] := ⟨rfl, by decide⟩

/-- C2 amended: the output sink is not guaranteed empty on failure; instead
it contains exactly the concatenation, in ascending range order, of the
staged bodies of the tasks preceding the first failed task — a clean,
possibly empty, prefix of the download, never interleaved or mixed chunk
data.  (The same expression also describes the success case, where the
prefix is the whole download.) -/
theorem c2_on_failure_output_is_clean_prefix (size : Int)
    (env : Int → Int → Response) (chunk_size max_workers : Int) (fuel : Nat)
    (t : SessionTrace)
    (h : download (some size) env chunk_size max_workers fuel = some t) :
    t.outWritten =
      (((outcomesOf env t.tasks).takeWhile okB).filterMap chunkBytes).flatten := by
  cases hp : planLoop size chunk_size fuel 0 with
  | none =>
    simp only [download, hp] at h
    exact Option.noConfusion h
  | some ranges =>
    simp only [download, hp, Option.some.injEq] at h
    subst h
    exact runResults_fst (outcomesOf env ranges)

/-- Witness for the amended C2 at the concrete failed session of the
counterexample environment. -/
theorem c2_on_failure_output_is_clean_prefix_witness :
    (SessionTrace.mk [(0, 2), (3, 5)] [1, 2, 3] [[1, 2, 3]]
        (.error (.httpStatus 500 "Internal Server Error"))).outWritten =
      (((outcomesOf c2Env [(0, 2), (3, 5)]).takeWhile okB).filterMap
        chunkBytes).flatten :=
  c2_on_failure_output_is_clean_prefix 6 c2Env 3 20 10
    ⟨[(0, 2), (3, 5)], [1, 2, 3], [[1, 2, 3]],
      .error (.httpStatus 500 "Internal Server Error")⟩ rfl

/-- A fetch outcome that succeeded is exactly the staged body with the
returned range pair. -/
theorem download_chunk_ok_shape (res : Response) (range_start range_end : Int)
    (h : okB (download_chunk res range_start range_end) = true) :
    download_chunk res range_start range_end =
      .ok (res.body, range_start, range_end) := by
  unfold download_chunk at *
  split_ifs at h <;> simp_all [okB]

/-- A fetch outcome that failed raised before opening its staging file, so
it staged nothing. -/
theorem chunkBytes_of_not_ok (o : Except Err (List Nat × Int × Int))
    (h : okB o = false) : chunkBytes o = none := by
  cases o with
  | ok v => simp [okB] at h
  | error e => rfl

/-- The staging files on disk after the tasks have run are exactly the
fetched bodies of the successful tasks, one per successfully fetched range,
in order — independent of how the session ends. -/
theorem filterMap_chunkBytes_eq (env : Int → Int → Response)
    (ranges : List (Int × Int)) :
    (outcomesOf env ranges).filterMap chunkBytes =
      (ranges.filter fun r => okB (download_chunk (env r.1 r.2) r.1 r.2)).map
        fun r => (env r.1 r.2).body := by
  induction ranges with
  | nil => rfl
  | cons r rs ih =>
    have hout : outcomesOf env (r :: rs) =
        download_chunk (env r.1 r.2) r.1 r.2 :: outcomesOf env rs := rfl
    rw [hout, List.filterMap_cons, List.filter_cons]
    cases hr : okB (download_chunk (env r.1 r.2) r.1 r.2) with
    | true =>
      rw [download_chunk_ok_shape _ _ _ hr]
      simp [chunkBytes, okB, ih]
    | false =>
      have hnone : chunkBytes (download_chunk (env r.1 r.2) r.1 r.2) = none :=
        chunkBytes_of_not_ok _ hr
      simp [hnone, hr, ih]

/-- Environment for the C8 counterexample: both ranges of a 6-byte resource
succeed. -/
def c8Env : Int → Int → Response := fun s _ =>
  if s = 0 then ⟨206, "Partial Content", [1, 2, 3]⟩
  else ⟨206, "Partial Content", [4, 5, 6]⟩

/-- C8 counterexample: a fully successful 2-chunk session ends `Done` with
both staging files still on disk — the code never deletes a chunk file,
neither after consuming it during reassembly nor on any abort path —
refuting the claim that no staging artifact remains after the session. -/
theorem c8_artifacts_survive_session :
    download (some 6) c8Env 3 20 10 =
      some ⟨[(0, 2), (3, 5)], [1, 2, 3, 4, 5, 6], [[1, 2, 3], [4, 5, 6]],
        .ok ()⟩ ∧
    ([[1, 2, 3], [4, 5, 6]] : List (List Nat)) ≠ [] := ⟨rfl, by decide⟩

/-- C8 amended: staging storage is never released: however the session ends
— `Done` or `Aborted`, the result field of the trace unconstrained — the
staging files on disk when `download` returns are exactly one artifact per
successfully fetched range, in order, each still holding that range's full
fetched body.  Nothing is removed after a chunk is consumed during
reassembly, and nothing is removed on the abort path either. -/
theorem c8_staging_never_removed (size : Int) (env : Int → Int → Response)
    (chunk_size max_workers : Int) (fuel : Nat) (t : SessionTrace)
    (h : download (some size) env chunk_size max_workers fuel = some t) :
    t.stagingRemaining =
      (t.tasks.filter fun r => okB (download_chunk (env r.1 r.2) r.1 r.2)).map
        fun r => (env r.1 r.2).body := by
  cases hp : planLoop size chunk_size fuel 0 with
  | none =>
    simp only [download, hp] at h
    exact Option.noConfusion h
  | some ranges =>
    simp only [download, hp, Option.some.injEq] at h
    subst h
    exact filterMap_chunkBytes_eq env ranges

/-- Environment for the C8 witness: the first range of a 6-byte resource
succeeds, the second fails with a 500, so the session aborts. -/
def c8AbortEnv : Int → Int → Response := fun s _ =>
  if s = 0 then ⟨206, "Partial Content", [1, 2, 3]⟩
  else ⟨500, "Internal Server Error", []⟩

/-- Witness for the amended C8 at a concrete aborted session: the failed
session ends with the successfully staged chunk file `[1,2,3]` still on
disk — the abort path removed nothing. -/
theorem c8_staging_never_removed_witness :
    (SessionTrace.mk [(0, 2), (3, 5)] [1, 2, 3] [[1, 2, 3]]
        (.error (.httpStatus 500 "Internal Server Error"))).stagingRemaining =
      ([((0 : Int), (2 : Int)), (3, 5)].filter fun r =>
          okB (download_chunk (c8AbortEnv r.1 r.2) r.1 r.2)).map
        fun r => (c8AbortEnv r.1 r.2).body :=
  c8_staging_never_removed 6 c8AbortEnv 3 20 10
    ⟨[(0, 2), (3, 5)], [1, 2, 3], [[1, 2, 3]],
      .error (.httpStatus 500 "Internal Server Error")⟩ rfl

/-- C10: the result loop inspects futures in submission (ascending range)
order, so when a session fails, the error `download` raises is the error of
the first failed task in that order — never a later task's error, however
many tasks failed — and the output sink already holds exactly the bytes of
every task preceding that first failure. -/
theorem c10_first_failure_in_order (size : Int) (env : Int → Int → Response)
    (chunk_size max_workers : Int) (fuel : Nat) (t : SessionTrace) (e : Err)
    (h : download (some size) env chunk_size max_workers fuel = some t)
    (herr : t.result = .error e) :
    ((outcomesOf env t.tasks).dropWhile okB).head? = some (.error e) ∧
    t.outWritten =
      (((outcomesOf env t.tasks).takeWhile okB).filterMap chunkBytes).flatten := by
  cases hp : planLoop size chunk_size fuel 0 with
  | none =>
    simp only [download, hp] at h
    exact Option.noConfusion h
  | some ranges =>
    simp only [download, hp, Option.some.injEq] at h
    subst h
    exact ⟨(runResults_snd_error (outcomesOf env ranges) e).mp herr,
      runResults_fst (outcomesOf env ranges)⟩

/-- Environment for the C10 witness: of three ranges, the first succeeds,
the second fails with a 404 and the third with a 500. -/
def c10Env : Int → Int → Response := fun s _ =>
  if s = 0 then ⟨206, "Partial Content", [9, 9, 9]⟩
  else if s = 3 then ⟨404, "Not Found", []⟩
  else ⟨500, "Internal Server Error", []⟩

/-- Witness for C10: with two failed tasks (404 on the second range, 500 on
the third) the propagated error is the 404 of the earlier range, and the
first chunk's bytes were already written. -/
theorem c10_first_failure_in_order_witness :
    ((outcomesOf c10Env [(0, 2), (3, 5), (6, 8)]).dropWhile okB).head? =
        some (.error (.httpStatus 404 "Not Found")) ∧
    (SessionTrace.mk [(0, 2), (3, 5), (6, 8)] [9, 9, 9] [[9, 9, 9]]
        (.error (.httpStatus 404 "Not Found"))).outWritten =
      (((outcomesOf c10Env [(0, 2), (3, 5), (6, 8)]).takeWhile okB).filterMap
        chunkBytes).flatten :=
  c10_first_failure_in_order 9 c10Env 3 20 10
    ⟨[(0, 2), (3, 5), (6, 8)], [9, 9, 9], [[9, 9, 9]],
      .error (.httpStatus 404 "Not Found")⟩
    (.httpStatus 404 "Not Found") rfl rfl

end ConcurrentDownloader
